import Mathlib

/-!
Verification of the `ChatService` client-side session manager
(`src/client/src/lib/chat.ts`).

The class is embedded shallowly: its mutable fields become a `ChatService`
state structure, and each method / socket handler becomes a pure function
from a state (plus the ambient authenticated user id and the current clock
value, both of which the source reads through `auth.currentUser` and
`new Date()`) to a new state together with the observable outputs of the
call: the list of notifications fanned out to subscribers and the list of
payloads emitted on the wire.  Subscribers are identified by natural-number
handles (the source keys them by callback object in a `Set`); a
notification is a pair (subscriber handle, message).  Exceptions thrown by
the transport are modelled by a boolean oracle passed to the function, and
a caught-and-not-rethrown exception shows up as a normal return value.
-/

namespace Chat

/-- The `type` discriminator of a `ChatMessage`: the string union of
message, connection_status, user_connected, typing, voice_call and
ice-candidate in the source; the hyphenated tag is spelled `iceCandidate`
here. -/
inductive MsgType
  | message
  | connection_status
  | user_connected
  | typing
  | voice_call
  | iceCandidate
  deriving DecidableEq, Repr

/-- The wire spelling of each message type, used both as the emit channel
name and inside dedup keys. -/
def MsgType.toWire : MsgType → String
  | .message => "message"
  | .connection_status => "connection_status"
  | .user_connected => "user_connected"
  | .typing => "typing"
  | .voice_call => "voice_call"
  | .iceCandidate => "ice-candidate"

/-- The `callData.type` tag in the source: the string union of request,
accepted, rejected, ended and busy. -/
inductive CallKind
  | request
  | accepted
  | rejected
  | ended
  | busy
  deriving DecidableEq, Repr

def CallKind.toWire : CallKind → String
  | .request => "request"
  | .accepted => "accepted"
  | .rejected => "rejected"
  | .ended => "ended"
  | .busy => "busy"

/-- Model of `RTCSessionDescriptionInit`: an optional sdp-type string and an
optional sdp payload string. -/
structure SessionDesc where
  type : Option String
  sdp : Option String
  deriving DecidableEq, Repr

/-- The `callData` record of a `ChatMessage`. -/
structure CallDataRec where
  type : CallKind
  offer : Option SessionDesc
  answer : Option SessionDesc
  deriving DecidableEq, Repr

def jsonQuote (s : String) : String := "\"" ++ s ++ "\""

/-- Model of `JSON.stringify` on a `SessionDesc` object: present fields in
insertion order, absent (undefined) fields omitted. -/
def SessionDesc.toJson (d : SessionDesc) : String :=
  "\x7b" ++ String.intercalate ","
    ((match d.type with
      | some t => ["\"type\":" ++ jsonQuote t]
      | none => []) ++
     (match d.sdp with
      | some s => ["\"sdp\":" ++ jsonQuote s]
      | none => [])) ++ "\x7d"

/-- Model of `JSON.stringify` on a `callData` record. -/
def CallDataRec.toJson (c : CallDataRec) : String :=
  "\x7b" ++ String.intercalate ","
    (["\"type\":" ++ jsonQuote c.type.toWire] ++
     (match c.offer with
      | some o => ["\"offer\":" ++ o.toJson]
      | none => []) ++
     (match c.answer with
      | some a => ["\"answer\":" ++ a.toJson]
      | none => [])) ++ "\x7d"

/-- The `connectionState` union: connecting, connected or disconnected. -/
inductive ConnState
  | connecting
  | connected
  | disconnected
  deriving DecidableEq, Repr

/-- The `ChatMessage` interface: one `type` tag plus loose optional
fields. -/
structure ChatMessage where
  type : MsgType
  content : Option String := none
  senderId : Option String := none
  receiverId : Option String := none
  timestamp : Option String := none
  connectionStatus : Option ConnState := none
  userId : Option String := none
  isTyping : Option Bool := none
  callData : Option CallDataRec := none
  deriving DecidableEq, Repr

/-- JS template-literal interpolation of a possibly-undefined string:
`undefined` prints as the string "undefined". -/
def jsInterp : Option String → String
  | none => "undefined"
  | some s => s

/-- The dedup key of `generateMessageId`:
`type-senderId-receiverId-(timestamp or empty)-JSON.stringify(callData or empty string)`. -/
def generateMessageId (message : ChatMessage) : String :=
  message.type.toWire ++ "-" ++ jsInterp message.senderId ++ "-" ++
    jsInterp message.receiverId ++ "-" ++ message.timestamp.getD "" ++ "-" ++
    (match message.callData with
     | some c => c.toJson
     | none => jsonQuote "")

/-- The mutable fields of the `ChatService` class.  `socket = none` models a
null socket, `socket = some c` a socket whose `connected` flag is `c`.
`messageCallbacks` lists the subscriber handles, `messageSet` the dedup keys
of the current connection epoch, and `typingTimeoutId` carries the receiver
id of the pending typing auto-clear timer, if any. -/
structure ChatService where
  socket : Option Bool
  messageCallbacks : List Nat
  connectionState : ConnState
  reconnectAttempts : Nat
  messageSet : List String
  typingTimeoutId : Option String
  deriving DecidableEq, Repr

/-- Model of the forEach fan-out over `messageCallbacks`: one notification
per registered subscriber handle. -/
def fanout (st : ChatService) (m : ChatMessage) : List (Nat × ChatMessage) :=
  st.messageCallbacks.map (fun h => (h, m))

/-- Broadcast of `notifyConnectionStatus`: a `connection_status` message
with the current state and clock value, to every subscriber. -/
def notifyConnectionStatus (now : String) (st : ChatService) :
    List (Nat × ChatMessage) :=
  fanout st
    { type := .connection_status,
      connectionStatus := some st.connectionState,
      timestamp := some now }

/-- The `handleMessage` closure registered on the `message`, `voice_call`
and `ice-candidate` channels: skip own non-typing messages, then dedup
against `messageSet`, inserting and fanning out on a fresh key.  `uid` is
`auth.currentUser?.uid` at the moment the event arrives.  Returns the new
state and the notifications delivered by this call. -/
def handleMessage (uid : Option String) (st : ChatService) (m : ChatMessage) :
    ChatService × List (Nat × ChatMessage) :=
  if m.senderId = uid ∧ m.type ≠ MsgType.typing then
    (st, [])
  else
    let messageId := generateMessageId m
    if messageId ∈ st.messageSet then
      (st, [])
    else
      ({ st with messageSet := messageId :: st.messageSet }, fanout st m)

/-- The anonymous handler registered on the `typing` channel: deliver to
subscribers exactly when the `receiverId` of the event equals
`auth.currentUser?.uid`; no dedup, no state change. -/
def handleTyping (uid : Option String) (st : ChatService) (m : ChatMessage) :
    ChatService × List (Nat × ChatMessage) :=
  if m.receiverId = uid then (st, fanout st m) else (st, [])

/-- The inbound router: an event of type `t` arrives on the wire channel
named `t` (the sender emits on `message.type`, and the service listens on
`message`, `voice_call`, `ice-candidate` and `typing`); types without a
registered listener are never seen. -/
def handleEvent (uid : Option String) (st : ChatService) (m : ChatMessage) :
    ChatService × List (Nat × ChatMessage) :=
  match m.type with
  | .message => handleMessage uid st m
  | .voice_call => handleMessage uid st m
  | .iceCandidate => handleMessage uid st m
  | .typing => handleTyping uid st m
  | _ => (st, [])

/-- The `socket.on("connect")` handler: mark connected, reset the reconnect
counter, broadcast the status, clear the dedup cache, and announce presence
with a `user_connected` emission when a user is signed in.  Returns the new
state, the subscriber notifications, and the wire emissions. -/
def onConnect (uid : Option String) (now : String) (st : ChatService) :
    ChatService × List (Nat × ChatMessage) × List (String × ChatMessage) :=
  let st1 : ChatService :=
    { st with socket := st.socket.map (fun _ => true),
              connectionState := .connected,
              reconnectAttempts := 0 }
  let notifs := notifyConnectionStatus now st1
  let st2 := { st1 with messageSet := [] }
  let emits : List (String × ChatMessage) :=
    match uid with
    | some u =>
        [("user_connected",
          { type := .user_connected, senderId := some u, timestamp := some now })]
    | none => []
  (st2, notifs, emits)

/-- The `socket.on("disconnect")` handler: mark disconnected and broadcast
the status. -/
def onDisconnect (now : String) (st : ChatService) :
    ChatService × List (Nat × ChatMessage) :=
  let st1 : ChatService :=
    { st with socket := st.socket.map (fun _ => false),
              connectionState := .disconnected }
  (st1, notifyConnectionStatus now st1)

/-- The `socket.on("connect_error")` handler: identical state effect to a
disconnect, plus logging. -/
def onConnectError (now : String) (st : ChatService) :
    ChatService × List (Nat × ChatMessage) :=
  onDisconnect now st

/-- Model of `initializeConnection`.  `uid` is the current user (none when signed
out), `setupThrows` models a rejection of the token fetch or a throw from
the transport constructor, `now` the clock.  Returns the new state, the
connection-status notifications broadcast during the call, and whether the
call re-threw to its caller.  On the no-credential and already-connected
paths it returns without touching anything; otherwise it enters
`connecting`, broadcasts, tears down the old socket and opens a fresh
(not-yet-connected) one; a setup failure is caught, forces `disconnected`,
broadcasts again, and re-throws. -/
def initializeConnection (uid : Option String) (setupThrows : Bool)
    (now : String) (st : ChatService) :
    ChatService × List (Nat × ChatMessage) × Bool :=
  if uid = none then
    (st, [], false)
  else if st.socket = some true then
    (st, [], false)
  else
    let st1 := { st with connectionState := ConnState.connecting }
    let notifs1 := notifyConnectionStatus now st1
    if setupThrows then
      let st2 := { st1 with socket := none,
                            connectionState := ConnState.disconnected }
      (st2, notifs1 ++ notifyConnectionStatus now st2, true)
    else
      ({ st1 with socket := some false }, notifs1, false)

/-- Subscription through `onMessage`: register a subscriber handle.
(Unsubscribing removes it.) -/
def onMessage (st : ChatService) (h : Nat) : ChatService :=
  { st with messageCallbacks := h :: st.messageCallbacks }

/-- Model of `sendMessage`.  `emitThrows` models `socket.emit` throwing.  Returns the
new state, the wire emissions `(channel, payload)`, and whether a reconnect
attempt (`initializeConnection`) was triggered.  The function never
re-throws: the not-connected path triggers a reconnect and returns, the
dedup key of a non-typing message is recorded before the emit, typing
messages bypass the dedup check and never record, and an emit exception is
caught, triggering a reconnect exactly when `connectionState` is not
`connected`. -/
def sendMessage (emitThrows : Bool) (st : ChatService) (m : ChatMessage) :
    ChatService × List (String × ChatMessage) × Bool :=
  if st.socket ≠ some true then
    (st, [], true)
  else
    let messageId := generateMessageId m
    if messageId ∉ st.messageSet ∨ m.type = MsgType.typing then
      let st1 :=
        if m.type ≠ MsgType.typing then
          { st with messageSet := messageId :: st.messageSet }
        else st
      if emitThrows then
        (st1, [], st.connectionState ≠ ConnState.connected)
      else
        (st1, [(m.type.toWire, m)], false)
    else
      (st, [], false)

/-- Model of `sendTypingIndicator(receiverId, isTyping)`: cancel any pending
auto-clear timer, send a typing message stamped with the clock, and when
`isTyping` arm a fresh 3-second timer for the same receiver. -/
def sendTypingIndicator (uid : Option String) (emitThrows : Bool)
    (now : String) (st : ChatService) (receiverId : String) (isTyping : Bool) :
    ChatService × List (String × ChatMessage) × Bool :=
  let st1 := { st with typingTimeoutId := none }
  let msg : ChatMessage :=
    { type := .typing,
      senderId := uid,
      receiverId := some receiverId,
      isTyping := some isTyping,
      timestamp := some now }
  let r := sendMessage emitThrows st1 msg
  if isTyping then
    ({ r.1 with typingTimeoutId := some receiverId }, r.2.1, r.2.2)
  else
    r

/-- The typing auto-clear timer firing: when a timer is pending for
receiver `r`, it invokes `sendTypingIndicator(r, false)`; a cleared timer
never fires. -/
def fireTypingTimer (uid : Option String) (emitThrows : Bool) (now : String)
    (st : ChatService) : ChatService × List (String × ChatMessage) × Bool :=
  match st.typingTimeoutId with
  | some r => sendTypingIndicator uid emitThrows now st r false
  | none => (st, [], false)

/-- Model of `close()`: clear the typing timer, close and drop the socket, clear
subscribers and the dedup cache, mark disconnected, then broadcast (to the
now-empty subscriber set). -/
def close (now : String) (st : ChatService) :
    ChatService × List (Nat × ChatMessage) :=
  let st1 : ChatService :=
    { st with typingTimeoutId := none,
              socket := none,
              messageCallbacks := [],
              messageSet := [],
              connectionState := ConnState.disconnected }
  (st1, notifyConnectionStatus now st1)

/-- The transient state of one `getLastOffer` promise: whether the
single-use `handleOffer` listener is still registered and whether the
promise has been resolved (and with what value). -/
structure OfferWait where
  listenerOn : Bool
  resolved : Option (Option SessionDesc)
  deriving DecidableEq, Repr

/-- Events observable by one `getLastOffer` call: a `voice_call` message
arriving on the wire, or the 5-second timeout firing. -/
inductive OfferEvent
  | arrival (m : ChatMessage)
  | timeoutFires
  deriving DecidableEq, Repr

/-- The qualifying test of `handleOffer`: a `voice_call` message from the
awaited sender carrying an offer payload. -/
def offerMatches (senderId : String) (m : ChatMessage) : Bool :=
  m.type = MsgType.voice_call ∧ m.senderId = some senderId ∧
    (m.callData.bind CallDataRec.offer).isSome

/-- One step of the `getLastOffer` race.  A qualifying arrival while the
listener is registered deregisters it and resolves with the offer (a
promise resolves at most once, so a later resolve is a no-op).  The timeout
deregisters the listener — harmlessly when it is already gone — and
resolves null if the promise is still pending. -/
def offerStep (senderId : String) (s : OfferWait) : OfferEvent → OfferWait
  | .arrival m =>
      if s.listenerOn && offerMatches senderId m then
        { listenerOn := false,
          resolved :=
            match s.resolved with
            | some v => some v
            | none => some (m.callData.bind CallDataRec.offer) }
      else s
  | .timeoutFires =>
      { listenerOn := false,
        resolved :=
          match s.resolved with
          | some v => some v
          | none => some none }

/-- Model of `getLastOffer(senderId)` observed over a trace of events: when the
socket is not connected it resolves null immediately without registering a
listener; otherwise it registers `handleOffer` and runs the race. -/
def getLastOffer (connected : Bool) (senderId : String)
    (trace : List OfferEvent) : OfferWait :=
  if !connected then
    { listenerOn := false, resolved := some none }
  else
    trace.foldl (offerStep senderId) { listenerOn := true, resolved := none }

/-- The offer payload of the first qualifying `voice_call` message in a
list, if any. -/
def firstOffer (senderId : String) : List ChatMessage → Option SessionDesc
  | [] => none
  | m :: rest =>
      if offerMatches senderId m then m.callData.bind CallDataRec.offer
      else firstOffer senderId rest

/-! ## Helper lemmas -/

/-- The dedup key depends only on the five fields
(type, senderId, receiverId, timestamp, callData). -/
theorem generateMessageId_congr {m m' : ChatMessage} (ht : m'.type = m.type)
    (hs : m'.senderId = m.senderId) (hr : m'.receiverId = m.receiverId)
    (hts : m'.timestamp = m.timestamp) (hc : m'.callData = m.callData) :
    generateMessageId m' = generateMessageId m := by
  simp [generateMessageId, ht, hs, hr, hts, hc]

/-- Counting the notifications of one subscriber in a fan-out. -/
theorem count_fanout (st : ChatService) (m : ChatMessage) (h : Nat) :
    List.count (h, m) (fanout st m) = List.count h st.messageCallbacks := by
  show List.count (h, m) (st.messageCallbacks.map fun x => (x, m)) =
    List.count h st.messageCallbacks
  induction st.messageCallbacks with
  | nil => simp
  | cons a t ih => simp [List.count_cons, ih]

/-- A non-self fresh-key event on a deduplicated channel: the router caches
the key and fans out. -/
theorem handleMessage_fresh (uid : Option String) (st : ChatService)
    (m : ChatMessage) (hself : m.senderId ≠ uid)
    (hfresh : generateMessageId m ∉ st.messageSet) :
    handleMessage uid st m =
      ({ st with messageSet := generateMessageId m :: st.messageSet },
       fanout st m) := by
  simp [handleMessage, hself, hfresh]

/-- A non-self event whose key is already cached is silently discarded. -/
theorem handleMessage_dup (uid : Option String) (st : ChatService)
    (m : ChatMessage) (hself : m.senderId ≠ uid)
    (hdup : generateMessageId m ∈ st.messageSet) :
    handleMessage uid st m = (st, []) := by
  simp [handleMessage, hself, hdup]

/-- On the three deduplicated channels the router is `handleMessage`. -/
theorem handleEvent_routes (uid : Option String) (st : ChatService)
    (m : ChatMessage)
    (htype : m.type = MsgType.message ∨ m.type = MsgType.voice_call ∨
      m.type = MsgType.iceCandidate) :
    handleEvent uid st m = handleMessage uid st m := by
  rcases htype with h | h | h <;> simp [handleEvent, h]

/-! ## Claims -/

/-- C1 counterexample: with local identity "A" and a single subscriber, the
non-typing inbound event `c1SelfMsg` — whose five key fields are fixed and
whose sender is "A" itself — delivered twice to the router yields zero
notifications, not exactly one per subscriber: the claim as stated fails on
self-originated events. -/
def c1State : ChatService :=
  { socket := some true, messageCallbacks := [0],
    connectionState := .connected, reconnectAttempts := 0,
    messageSet := [], typingTimeoutId := none }

def c1SelfMsg : ChatMessage :=
  { type := .message, content := some "hi", senderId := some "A",
    receiverId := some "B", timestamp := some "T1" }

/-- C1: counterexample — delivering the self-sent non-typing event
`c1SelfMsg` twice with identical (type, senderId, receiverId, timestamp,
callData) produces zero subscriber notifications although a subscriber is
registered, so "exactly one notification to each subscriber" fails. -/
theorem C1_counterexample :
    (handleEvent (some "A") c1State c1SelfMsg).2 = [] ∧
    (handleEvent (some "A") (handleEvent (some "A") c1State c1SelfMsg).1
        c1SelfMsg).2 = [] ∧
    c1State.messageCallbacks = [0] := by
  decide

/-- C1 (amended): for an inbound event on one of the deduplicated channels
(message / voice_call / ice-candidate) whose sender is not the local
identity and whose dedup key is not yet cached, delivery twice with
identical key fields notifies each (distinct) subscriber exactly once: the
first delivery inserts the key and fans out, the second finds the key
present and is discarded silently. -/
theorem C1_dedup_exactly_once (uid : Option String) (st : ChatService)
    (m : ChatMessage)
    (htype : m.type = MsgType.message ∨ m.type = MsgType.voice_call ∨
      m.type = MsgType.iceCandidate)
    (hself : m.senderId ≠ uid)
    (hfresh : generateMessageId m ∉ st.messageSet)
    (hnodup : st.messageCallbacks.Nodup) :
    (handleEvent uid st m).2 = fanout st m ∧
    generateMessageId m ∈ (handleEvent uid st m).1.messageSet ∧
    (handleEvent uid (handleEvent uid st m).1 m).2 = [] ∧
    ∀ h ∈ st.messageCallbacks,
      List.count (h, m)
        ((handleEvent uid st m).2 ++
          (handleEvent uid (handleEvent uid st m).1 m).2) = 1 := by
  have hroute := handleEvent_routes uid st m htype
  have h1 := handleMessage_fresh uid st m hself hfresh
  have hroute2 := handleEvent_routes uid
    ({ st with messageSet := generateMessageId m :: st.messageSet }) m htype
  have h2 : handleMessage uid
      ({ st with messageSet := generateMessageId m :: st.messageSet }) m =
      ({ st with messageSet := generateMessageId m :: st.messageSet }, []) :=
    handleMessage_dup uid _ m hself (by simp)
  refine ⟨?_, ?_, ?_, ?_⟩
  · rw [hroute, h1]
  · rw [hroute, h1]
    simp
  · rw [hroute, h1]
    simpa [hroute2] using congrArg Prod.snd h2
  · intro h hmem
    rw [hroute, h1]
    have : (handleEvent uid
        ({ st with messageSet := generateMessageId m :: st.messageSet }) m).2
        = [] := by
      rw [hroute2, h2]
    rw [this]
    simp [count_fanout, List.count_eq_one_of_mem hnodup hmem]

/-- C1 witness: the amended theorem at a concrete input. -/
theorem C1_dedup_exactly_once_witness :
    (handleEvent (some "A") c1State
      { type := .message, senderId := some "B", receiverId := some "A",
        timestamp := some "T1" }).2 =
      fanout c1State
        { type := .message, senderId := some "B", receiverId := some "A",
          timestamp := some "T1" } :=
  (C1_dedup_exactly_once (some "A") c1State
    { type := .message, senderId := some "B", receiverId := some "A",
      timestamp := some "T1" }
    (Or.inl rfl) (by decide) (by decide) (by decide)).1

/-- C2: an inbound event whose senderId equals the local identity is never
delivered to any subscriber when its type is not typing, while a
self-originated typing event addressed to the local identity is still
delivered — the asymmetry of the self-filter is exact. -/
theorem C2_self_filter (u : String) (st : ChatService) (m : ChatMessage)
    (hs : m.senderId = some u) :
    (m.type ≠ MsgType.typing → (handleEvent (some u) st m).2 = []) ∧
    (m.type = MsgType.typing → m.receiverId = some u →
      (handleEvent (some u) st m).2 = fanout st m) := by
  constructor
  · intro ht
    cases hm : m.type <;>
      simp_all [handleEvent, handleMessage, handleTyping, hs, hm]
  · intro ht hr
    simp [handleEvent, ht, handleTyping, hr]

/-- C2 witness: a concrete self-sent message event is dropped. -/
theorem C2_self_filter_witness :
    (handleEvent (some "A") c1State c1SelfMsg).2 = [] :=
  (C2_self_filter "A" c1State c1SelfMsg rfl).1 (by decide)

/-- C3: inbound typing events bypass dedup entirely: the typing handler
leaves the whole session state (dedup cache included) unchanged, delivers
exactly when the receiverId of the event equals the local identity, and the
same
typing payload delivered twice fans out to the subscribers both times. -/
theorem C3_typing_bypasses_dedup (uid : Option String) (st : ChatService)
    (m : ChatMessage) (ht : m.type = MsgType.typing) :
    (handleEvent uid st m).1 = st ∧
    (handleEvent uid st m).2 =
      (if m.receiverId = uid then fanout st m else []) ∧
    (m.receiverId = uid →
      (handleEvent uid st m).2 = fanout st m ∧
      (handleEvent uid (handleEvent uid st m).1 m).2 = fanout st m) := by
  have hbase : handleEvent uid st m = handleTyping uid st m := by
    simp [handleEvent, ht]
  have hT : handleTyping uid st m =
      (if m.receiverId = uid then (st, fanout st m) else (st, [])) := rfl
  refine ⟨?_, ?_, ?_⟩
  · rw [hbase, hT]
    split <;> rfl
  · rw [hbase, hT]
    split <;> rfl
  · intro hr
    constructor
    · rw [hbase, hT]
      simp [hr]
    · rw [hbase, hT]
      simp [hr, handleEvent, ht, handleTyping]

/-- C3 witness: a typing event from "B" to local identity "A", delivered
twice, fans out both times. -/
theorem C3_typing_bypasses_dedup_witness :
    (handleEvent (some "A") c1State
      { type := .typing, senderId := some "B", receiverId := some "A",
        isTyping := some true }).1 = c1State :=
  (C3_typing_bypasses_dedup (some "A") c1State
    { type := .typing, senderId := some "B", receiverId := some "A",
      isTyping := some true } rfl).1

/-- C4: the `connect` handler always clears the dedup cache, so an event
delivered (and cached) before a disconnection is, after a successful
reconnect, fanned out to the subscribers again instead of being treated as
a duplicate. -/
theorem C4_reconnect_redelivers (uid : Option String) (t1 t2 : String)
    (st : ChatService) (m : ChatMessage)
    (htype : m.type = MsgType.message ∨ m.type = MsgType.voice_call ∨
      m.type = MsgType.iceCandidate)
    (hself : m.senderId ≠ uid)
    (hfresh : generateMessageId m ∉ st.messageSet) :
    (onConnect uid t2 st).1.messageSet = [] ∧
    (handleEvent uid st m).2 = fanout st m ∧
    (handleEvent uid (handleEvent uid st m).1 m).2 = [] ∧
    (handleEvent uid
        (onConnect uid t2 ((onDisconnect t1 (handleEvent uid st m).1).1)).1
        m).2 =
      fanout
        (onConnect uid t2 ((onDisconnect t1 (handleEvent uid st m).1).1)).1
        m := by
  have hroute := handleEvent_routes uid st m htype
  have h1 := handleMessage_fresh uid st m hself hfresh
  refine ⟨by simp [onConnect], ?_, ?_, ?_⟩
  · rw [hroute, h1]
  · rw [hroute, h1, handleEvent_routes uid _ m htype,
      handleMessage_dup uid _ m hself (by simp)]
  · rw [handleEvent_routes uid _ m htype,
      handleMessage_fresh uid _ m hself (by simp [onConnect, onDisconnect])]

/-- C4 witness: a concrete message from "B", delivered, then a disconnect
and a reconnect; it is delivered again. -/
theorem C4_reconnect_redelivers_witness :
    (handleEvent (some "A")
        (onConnect (some "A") "T3"
          ((onDisconnect "T2"
            (handleEvent (some "A") c1State
              { type := .message, senderId := some "B",
                receiverId := some "A", timestamp := some "T1" }).1).1)).1
        { type := .message, senderId := some "B", receiverId := some "A",
          timestamp := some "T1" }).2 =
      fanout
        (onConnect (some "A") "T3"
          ((onDisconnect "T2"
            (handleEvent (some "A") c1State
              { type := .message, senderId := some "B",
                receiverId := some "A", timestamp := some "T1" }).1).1)).1
        { type := .message, senderId := some "B", receiverId := some "A",
          timestamp := some "T1" } :=
  (C4_reconnect_redelivers (some "A") "T2" "T3" c1State
    { type := .message, senderId := some "B", receiverId := some "A",
      timestamp := some "T1" }
    (Or.inl rfl) (by decide) (by decide)).2.2.2

/-- Once the `getLastOffer` promise is resolved and its transient listener
deregistered, every further event — arrivals and timeout firings alike —
leaves the race state unchanged. -/
theorem offerRun_stuck (sid : String) (tr : List OfferEvent)
    (v : Option SessionDesc) :
    tr.foldl (offerStep sid) { listenerOn := false, resolved := some v } =
      { listenerOn := false, resolved := some v } := by
  induction tr with
  | nil => rfl
  | cons e t ih =>
    cases e with
    | arrival m => simpa [offerStep] using ih
    | timeoutFires => simpa [offerStep] using ih

/-- Running the `getLastOffer` race over a list of arrivals followed by the
timeout resolves with the offer payload of the first qualifying arrival, or
null, and leaves the listener deregistered. -/
theorem offerRun_main (sid : String) (es : List ChatMessage) :
    (es.map OfferEvent.arrival ++ [OfferEvent.timeoutFires]).foldl
        (offerStep sid) { listenerOn := true, resolved := none } =
      { listenerOn := false, resolved := some (firstOffer sid es) } := by
  induction es with
  | nil => rfl
  | cons m rest ih =>
    by_cases hm : offerMatches sid m
    · have hstep : offerStep sid { listenerOn := true, resolved := none }
          (OfferEvent.arrival m) =
          { listenerOn := false,
            resolved := some (m.callData.bind CallDataRec.offer) } := by
        simp [offerStep, hm]
      simp only [List.map_cons, List.cons_append, List.foldl_cons]
      rw [hstep, offerRun_stuck]
      simp [firstOffer, hm]
    · have hstep : offerStep sid { listenerOn := true, resolved := none }
          (OfferEvent.arrival m) = { listenerOn := true, resolved := none } := by
        simp [offerStep, hm]
      simp only [List.map_cons, List.cons_append, List.foldl_cons]
      rw [hstep, ih]
      simp [firstOffer, hm]

/-- C5: `getLastOffer(senderId)` resolves with the offer payload of the
first qualifying voice_call arrival that beats the timeout, or with null at
the timeout, with the transient listener deregistered either way; called
while not connected it resolves null immediately; a resolved race never
resolves again, and firing the timeout (deregistering) twice is a harmless
no-op. -/
theorem C5_getLastOffer (senderId : String) (es : List ChatMessage)
    (tr : List OfferEvent) :
    getLastOffer true senderId
        (es.map OfferEvent.arrival ++ [OfferEvent.timeoutFires]) =
      { listenerOn := false, resolved := some (firstOffer senderId es) } ∧
    getLastOffer false senderId tr =
      { listenerOn := false, resolved := some none } ∧
    (∀ s : OfferWait, ∀ e : OfferEvent, s.resolved.isSome →
      (offerStep senderId s e).resolved = s.resolved) ∧
    (∀ s : OfferWait,
      offerStep senderId (offerStep senderId s OfferEvent.timeoutFires)
          OfferEvent.timeoutFires =
        offerStep senderId s OfferEvent.timeoutFires) := by
  refine ⟨?_, rfl, ?_, ?_⟩
  · simpa [getLastOffer] using offerRun_main senderId es
  · intro s e hs
    obtain ⟨v, hv⟩ := Option.isSome_iff_exists.mp hs
    cases e with
    | arrival m =>
      by_cases hc : s.listenerOn && offerMatches senderId m
      · simp [offerStep, hc, hv]
      · simp [offerStep, hc]
    | timeoutFires => simp [offerStep, hv]
  · intro s
    cases hr : s.resolved <;> simp [offerStep, hr]

def c5Offer : SessionDesc := { type := some "offer", sdp := some "v=0" }

def c5Msg : ChatMessage :=
  { type := .voice_call, senderId := some "B", receiverId := some "A",
    timestamp := some "T2",
    callData := some { type := .request, offer := some c5Offer, answer := none } }

/-- C5 witness: a single qualifying arrival resolves with its offer, and a
resolved race ignores a late timeout firing. -/
theorem C5_getLastOffer_witness :
    getLastOffer true "B"
        ([c5Msg].map OfferEvent.arrival ++ [OfferEvent.timeoutFires]) =
      { listenerOn := false, resolved := some (some c5Offer) } ∧
    (offerStep "B" { listenerOn := false, resolved := some (some c5Offer) }
        OfferEvent.timeoutFires).resolved = some (some c5Offer) :=
  ⟨((C5_getLastOffer "B" [c5Msg] []).1).trans (by decide),
   (C5_getLastOffer "B" [] []).2.2.1 _ _ (by decide)⟩

/-- C6: every sendTyping call cancels the pending auto-clear timer before
sending; a call with isTyping = true leaves exactly one timer armed for its
receiver (two such calls in a row still leave exactly one); the armed timer
fires exactly one auto-generated typing(false) transmission and clears
itself, and a cleared timer fires nothing. -/
theorem C6_typing_timer (uid : Option String) (t1 t2 t3 : String)
    (st : ChatService) (r : String) (hconn : st.socket = some true) :
    (sendTypingIndicator uid false t1 st r true).1 =
      { st with typingTimeoutId := some r } ∧
    (sendTypingIndicator uid false t2
        { st with typingTimeoutId := some r } r true).1 =
      { st with typingTimeoutId := some r } ∧
    fireTypingTimer uid false t3 { st with typingTimeoutId := some r } =
      ({ st with typingTimeoutId := none },
       [("typing",
         { type := .typing, senderId := uid, receiverId := some r,
           isTyping := some false, timestamp := some t3 })],
       false) ∧
    fireTypingTimer uid false t3 { st with typingTimeoutId := none } =
      ({ st with typingTimeoutId := none }, [], false) ∧
    (∀ b now, (sendTypingIndicator uid false now st r b).1.typingTimeoutId =
      (if b then some r else none)) := by
  refine ⟨?_, ?_, ?_, ?_, ?_⟩
  · simp [sendTypingIndicator, sendMessage, hconn]
  · simp [sendTypingIndicator, sendMessage, hconn]
  · simp [fireTypingTimer, sendTypingIndicator, sendMessage, hconn,
      MsgType.toWire]
  · simp [fireTypingTimer]
  · intro b now
    cases b <;> simp [sendTypingIndicator, sendMessage, hconn]

/-- C6 witness: from a concrete connected state, a sendTyping(true) call
arms the timer for its receiver. -/
theorem C6_typing_timer_witness :
    (sendTypingIndicator (some "A") false "T1" c1State "B" true).1 =
      { c1State with typingTimeoutId := some "B" } :=
  (C6_typing_timer (some "A") "T1" "T2" "T3" c1State "B" rfl).1

/-- With a cached key, `handleMessage` delivers nothing, whatever the
sender. -/
theorem handleMessage_cached (uid : Option String) (st : ChatService)
    (m : ChatMessage) (hdup : generateMessageId m ∈ st.messageSet) :
    (handleMessage uid st m).2 = [] := by
  unfold handleMessage
  split
  · rfl
  · simp [hdup]

/-- Behavior of `sendMessage` on a dead or absent socket: reconnect, nothing
sent. -/
theorem sendMessage_notConnected (st : ChatService) (m : ChatMessage)
    (b : Bool) (h : st.socket ≠ some true) :
    sendMessage b st m = (st, [], true) := by
  simp [sendMessage, h]

/-- Behavior of `sendMessage` on a fresh-key non-typing message while
connected: record the key, then emit on the channel named by the type. -/
theorem sendMessage_fresh (st : ChatService) (m : ChatMessage)
    (hconn : st.socket = some true) (htyp : m.type ≠ MsgType.typing)
    (hfresh : generateMessageId m ∉ st.messageSet) :
    sendMessage false st m =
      ({ st with messageSet := generateMessageId m :: st.messageSet },
       [(m.type.toWire, m)], false) := by
  simp [sendMessage, hconn, htyp, hfresh]

/-- Behavior of `sendMessage` on a non-typing message whose key was already
sent or delivered in this epoch: silently skipped, whatever the emit
oracle. -/
theorem sendMessage_dup (st : ChatService) (m : ChatMessage) (b : Bool)
    (hconn : st.socket = some true) (htyp : m.type ≠ MsgType.typing)
    (hdup : generateMessageId m ∈ st.messageSet) :
    sendMessage b st m = (st, [], false) := by
  simp [sendMessage, hconn, htyp, hdup]

/-- Behavior of `sendMessage` on a typing message while connected: always
emitted, and the dedup cache is never touched. -/
theorem sendMessage_typing (st : ChatService) (m : ChatMessage)
    (hconn : st.socket = some true) (htyp : m.type = MsgType.typing) :
    sendMessage false st m = (st, [(m.type.toWire, m)], false) := by
  simp [sendMessage, hconn, htyp]

/-- C7: `sendMessage` while connected transmits a non-typing event exactly
when its dedup key is unrecorded in this epoch, recording the key (the key
stays recorded even when the emit then throws); a typing event is always
transmitted, whatever the cache; while not connected the call triggers a
reconnect attempt and returns without sending; and an emit exception is
caught — never re-raised — triggering a reconnect exactly when the
connection state is not `connected`. -/
theorem C7_sendMessage (st : ChatService) (m : ChatMessage) :
    (st.socket ≠ some true → ∀ b, sendMessage b st m = (st, [], true)) ∧
    (st.socket = some true → m.type ≠ MsgType.typing →
      generateMessageId m ∉ st.messageSet →
      sendMessage false st m =
        ({ st with messageSet := generateMessageId m :: st.messageSet },
         [(m.type.toWire, m)], false)) ∧
    (st.socket = some true → m.type ≠ MsgType.typing →
      generateMessageId m ∈ st.messageSet →
      ∀ b, sendMessage b st m = (st, [], false)) ∧
    (st.socket = some true → m.type = MsgType.typing →
      sendMessage false st m = (st, [(m.type.toWire, m)], false)) ∧
    (st.socket = some true →
      (m.type = MsgType.typing ∨ generateMessageId m ∉ st.messageSet) →
      (sendMessage true st m).2.1 = [] ∧
      ((sendMessage true st m).2.2 = true ↔
        st.connectionState ≠ ConnState.connected) ∧
      (m.type ≠ MsgType.typing →
        generateMessageId m ∈ (sendMessage true st m).1.messageSet)) := by
  refine ⟨fun h b => sendMessage_notConnected st m b h,
    fun h1 h2 h3 => sendMessage_fresh st m h1 h2 h3,
    fun h1 h2 h3 b => sendMessage_dup st m b h1 h2 h3,
    fun h1 h2 => sendMessage_typing st m h1 h2, ?_⟩
  intro h1 hOr
  by_cases hty : m.type = MsgType.typing
  · refine ⟨?_, ?_, fun hne => absurd hty hne⟩ <;>
      simp [sendMessage, h1, hty]
  · have hfresh : generateMessageId m ∉ st.messageSet := by
      rcases hOr with h | h
      · exact absurd h hty
      · exact h
    refine ⟨?_, ?_, fun _ => ?_⟩ <;> simp [sendMessage, h1, hty, hfresh]

def c7Msg : ChatMessage :=
  { type := .message, content := some "out", senderId := some "A",
    receiverId := some "B", timestamp := some "T4" }

/-- C7 witness: a concrete fresh non-typing send records the key and emits
on the `message` channel. -/
theorem C7_sendMessage_witness :
    sendMessage false c1State c7Msg =
      ({ c1State with
          messageSet := generateMessageId c7Msg :: c1State.messageSet },
       [(c7Msg.type.toWire, c7Msg)], false) :=
  (C7_sendMessage c1State c7Msg).2.1 rfl (by decide) (by decide)

/-- C8: `initializeConnection` is a silent no-op — no error, no state
change, no broadcast — when no user is signed in or when the transport
socket is already connected; a connection-setup failure is caught, forces
the state to disconnected with the socket torn down, broadcasts the
connection status to every subscriber (after the `connecting` broadcast),
and re-signals the failure to the caller. -/
theorem C8_initializeConnection (uid : Option String) (b : Bool)
    (now : String) (st : ChatService) (u : String) :
    initializeConnection none b now st = (st, [], false) ∧
    (st.socket = some true →
      initializeConnection uid b now st = (st, [], false)) ∧
    (st.socket ≠ some true →
      initializeConnection (some u) true now st =
        ({ st with socket := none,
                   connectionState := ConnState.disconnected },
         notifyConnectionStatus now
             { st with connectionState := ConnState.connecting } ++
           notifyConnectionStatus now
             { st with socket := none,
                       connectionState := ConnState.disconnected },
         true)) := by
  refine ⟨by simp [initializeConnection], ?_, ?_⟩
  · intro h
    by_cases hu : uid = none <;> simp [initializeConnection, hu, h]
  · intro h
    simp [initializeConnection, h]

def c8State : ChatService :=
  { socket := none, messageCallbacks := [0],
    connectionState := .disconnected, reconnectAttempts := 0,
    messageSet := [], typingTimeoutId := none }

/-- C8 witness: a failing initialization from a concrete disconnected state
ends disconnected, broadcasts twice, and re-throws. -/
theorem C8_initializeConnection_witness :
    initializeConnection (some "A") true "T1" c8State =
      ({ c8State with socket := none,
                      connectionState := ConnState.disconnected },
       notifyConnectionStatus "T1"
           { c8State with connectionState := ConnState.connecting } ++
         notifyConnectionStatus "T1"
           { c8State with socket := none,
                          connectionState := ConnState.disconnected },
       true) :=
  (C8_initializeConnection (some "A") true "T1" c8State "A").2.2 (by decide)

/-- C9: `close()` is idempotent: a second call returns the very state the
first one left — disconnected, no socket, no pending typing timer, empty
subscriber set, empty dedup cache — and broadcasts nothing (the subscriber
set is already empty); a subsequent `initializeConnection` with a signed-in
user proceeds without error, entering `connecting` with a fresh socket. -/
theorem C9_close_idempotent (t1 t2 t3 : String) (st : ChatService)
    (u : String) :
    (close t2 (close t1 st).1).1 = (close t1 st).1 ∧
    (close t1 st).1.connectionState = ConnState.disconnected ∧
    (close t1 st).1.socket = none ∧
    (close t1 st).1.typingTimeoutId = none ∧
    (close t1 st).1.messageCallbacks = [] ∧
    (close t1 st).1.messageSet = [] ∧
    (close t2 (close t1 st).1).2 = [] ∧
    (initializeConnection (some u) false t3 (close t1 st).1).2.2 = false ∧
    (initializeConnection (some u) false t3
        (close t1 st).1).1.connectionState = ConnState.connecting ∧
    (initializeConnection (some u) false t3 (close t1 st).1).1.socket =
      some false := by
  refine ⟨rfl, rfl, rfl, rfl, rfl, rfl, rfl, ?_, ?_, ?_⟩ <;>
    simp [initializeConnection, close, notifyConnectionStatus, fanout]

/-- C10: the inbound dedup cache and the outbound send-dedup record are the
same `messageSet`: a non-typing event sent while connected has its key
recorded, after which an inbound event carrying identical (type, senderId,
receiverId, timestamp, callData) is never delivered to any subscriber;
conversely the key cached by an inbound delivery suppresses a later
outbound send of an event with the same key; and only a successful connect
or a `close()` empties the set. -/
theorem C10_shared_dedup (uid : Option String) (st : ChatService)
    (m m' : ChatMessage) (now : String)
    (hconn : st.socket = some true)
    (htyp : m.type ≠ MsgType.typing)
    (ht : m'.type = m.type) (hs : m'.senderId = m.senderId)
    (hr : m'.receiverId = m.receiverId) (hts : m'.timestamp = m.timestamp)
    (hc : m'.callData = m.callData) :
    generateMessageId m ∈ (sendMessage false st m).1.messageSet ∧
    (handleEvent uid (sendMessage false st m).1 m').2 = [] ∧
    ((m.type = MsgType.message ∨ m.type = MsgType.voice_call ∨
        m.type = MsgType.iceCandidate) → m.senderId ≠ uid →
      (sendMessage false (handleEvent uid st m).1 m').2.1 = []) ∧
    (onConnect uid now st).1.messageSet = [] ∧
    (close now st).1.messageSet = [] := by
  have hid : generateMessageId m' = generateMessageId m :=
    generateMessageId_congr ht hs hr hts hc
  have hmem : generateMessageId m ∈ (sendMessage false st m).1.messageSet := by
    by_cases hin : generateMessageId m ∈ st.messageSet
    · rw [sendMessage_dup st m false hconn htyp hin]
      exact hin
    · rw [sendMessage_fresh st m hconn htyp hin]
      simp
  refine ⟨hmem, ?_, ?_, by simp [onConnect], rfl⟩
  · cases hmt : m.type with
    | typing => exact absurd hmt htyp
    | message =>
        rw [handleEvent_routes uid _ m' (Or.inl (ht.trans hmt))]
        exact handleMessage_cached uid _ m' (hid ▸ hmem)
    | voice_call =>
        rw [handleEvent_routes uid _ m' (Or.inr (Or.inl (ht.trans hmt)))]
        exact handleMessage_cached uid _ m' (hid ▸ hmem)
    | iceCandidate =>
        rw [handleEvent_routes uid _ m'
          (Or.inr (Or.inr (ht.trans hmt)))]
        exact handleMessage_cached uid _ m' (hid ▸ hmem)
    | connection_status => simp [handleEvent, ht, hmt]
    | user_connected => simp [handleEvent, ht, hmt]
  · intro htype3 hself
    rw [handleEvent_routes uid st m htype3]
    have hmem2 : generateMessageId m ∈ (handleMessage uid st m).1.messageSet := by
      by_cases hin : generateMessageId m ∈ st.messageSet
      · rw [handleMessage_dup uid st m hself hin]
        exact hin
      · rw [handleMessage_fresh uid st m hself hin]
        simp
    have hsock : (handleMessage uid st m).1.socket = some true := by
      by_cases hin : generateMessageId m ∈ st.messageSet
      · rw [handleMessage_dup uid st m hself hin]
        exact hconn
      · rw [handleMessage_fresh uid st m hself hin]
        exact hconn
    rw [sendMessage_dup _ m' false hsock (ht ▸ htyp) (hid ▸ hmem2)]

def c10Msg : ChatMessage :=
  { type := .message, content := some "dup", senderId := some "A",
    receiverId := some "B", timestamp := some "T5" }

/-- C10 witness: a concrete outbound send followed by the identical inbound
event: nothing is delivered. -/
theorem C10_shared_dedup_witness :
    (handleEvent (some "A") (sendMessage false c1State c10Msg).1 c10Msg).2 =
      [] :=
  (C10_shared_dedup (some "A") c1State c10Msg c10Msg "T9" rfl (by decide)
    rfl rfl rfl rfl rfl).2.1

end Chat
